import Mathlib

/-!
Shallow embedding of the Agent VM provisioning lifecycle controller
(`agent.py`): the persisted Environment Record (`.agentconfig`), the two
polling loops (`_wait_for_boot`, `_wait_for_image`), and the three
lifecycle operations (`init_project`, `edit_environment`, `build_session`).
External effects (provider API calls, the interactive session, config
writes) are recorded as an ordered event trace; nondeterministic inputs
(fetched statuses, user decisions, call failures) are supplied as oracles.
-/

/-- The persisted Environment Record, mirroring the `Config` TypedDict:
`repo_name`, `base_image_id`, `instance_type`, `created_at`, `root_password`. -/
structure Config where
  repo_name : String
  base_image_id : String
  instance_type : String
  created_at : Nat
  root_password : String
deriving DecidableEq, Repr

/-- Result of one provider status fetch: a status string, or a raised exception. -/
inductive FetchResult where
  | ok (status : String)
  | err
deriving DecidableEq, Repr

/-- Outcome of the `while instance.status != 'running'` loop in `_wait_for_boot`:
`ready n` exits after `n` fetches, `raised n` means the `n`-th fetch raised,
`blocked` means the supplied (finite) oracle was exhausted without ever
observing "running" - modelling the unbounded loop spinning forever. -/
inductive BootOutcome where
  | ready (polls : Nat)
  | raised (polls : Nat)
  | blocked
deriving DecidableEq, Repr

/-- The statuses actually observed from a list of fetch results. -/
def statusesOf : List FetchResult → List String
  | [] => []
  | .ok s :: rest => s :: statusesOf rest
  | .err :: rest => statusesOf rest

/-- The status-polling loop of `_wait_for_boot` (agent.py lines 100-116):
check the current status; while it is not "running", sleep 5s and re-fetch.
`status` is the instance's status on entry; `fetches` is the oracle of
re-fetch results. -/
def wait_for_boot_loop : String → List FetchResult → BootOutcome
  | status, [] => if status = "running" then .ready 0 else .blocked
  | status, .err :: _ => if status = "running" then .ready 0 else .raised 1
  | status, .ok s :: rest =>
    if status = "running" then .ready 0
    else
      match wait_for_boot_loop s rest with
      | .ready n => .ready (n + 1)
      | .raised n => .raised (n + 1)
      | .blocked => .blocked

/-- The SSH-readiness grace loop of `_wait_for_boot` (agent.py line 122):
`for i in range(30): time.sleep(1)` - one entry per one-second tick. -/
def ssh_grace_loop : List Nat := List.range 30

/-- A completed `_wait_for_boot` run: how many status polls it made and how
many one-second grace ticks it slept before printing "VM is ready". -/
structure BootResult where
  polls : Nat
  graceTicks : Nat
deriving DecidableEq, Repr

/-- Full `_wait_for_boot`: `some` exactly when the status loop exits normally,
after which the fixed grace loop runs to completion. -/
def wait_for_boot (status : String) (fetches : List FetchResult) : Option BootResult :=
  match wait_for_boot_loop status fetches with
  | .ready n => some ⟨n, ssh_grace_loop.length⟩
  | _ => none

/-- `max_wait_time = 600` in `_wait_for_image`. -/
def max_wait_time : Nat := 600

/-- The display percentage of `_wait_for_image`:
`min(int((wait_time / max_wait_time) * 95), 95)`. -/
def image_percentage (wait_time : Nat) : Nat :=
  min ((wait_time * 95) / max_wait_time) 95

/-- A completed `_wait_for_image` run: number of polls, the percentages it
printed (in order), and whether the "taking longer than expected" soft-timeout
warning was printed before the final "Image is ready" message. -/
structure ImageWaitResult where
  polls : Nat
  percentages : List Nat
  timedOutWarning : Bool
deriving DecidableEq, Repr

/-- The polling loop of `_wait_for_image` (agent.py lines 134-150): while the
image status is not "available", sleep 10s, add 10 to `wait_time`, re-fetch,
print the percentage, and break (without error) once `wait_time` reaches
`max_wait_time`. The fetch oracle is indexed by the pre-increment `wait_time`;
`Except.error k` propagates an exception raised by the `k`-th fetch; the outer
`none` means the fuel ran out (shown impossible for the fuel used below). -/
def wait_for_image_loop (fetch : Nat → FetchResult) :
    String → Nat → Nat → Option (Except Nat ImageWaitResult)
  | _, _, 0 => none
  | status, wait_time, fuel + 1 =>
    if status = "available" then some (.ok ⟨0, [], false⟩)
    else
      match fetch wait_time with
      | .err => some (.error 1)
      | .ok s =>
        if max_wait_time ≤ wait_time + 10 then
          some (.ok ⟨1, [image_percentage (wait_time + 10)], true⟩)
        else
          match wait_for_image_loop fetch s (wait_time + 10) fuel with
          | none => none
          | some (.error k) => some (.error (k + 1))
          | some (.ok r) =>
            some (.ok ⟨r.polls + 1, image_percentage (wait_time + 10) :: r.percentages,
                       r.timedOutWarning⟩)

/-- Fuel amply covering the 60 possible iterations of the image loop. -/
def image_fuel : Nat := 61

/-- Full `_wait_for_image`: start from the image's initial status with
`wait_time = 0`. -/
def wait_for_image (status : String) (fetch : Nat → FetchResult) :
    Option (Except Nat ImageWaitResult) :=
  wait_for_image_loop fetch status 0 image_fuel

/-- Polls performed by an image wait, whether it returned or raised. -/
def image_result_polls : Except Nat ImageWaitResult → Nat
  | .ok r => r.polls
  | .error k => k

/-- Externally visible milestone effects of a lifecycle operation, in
chronological order: provider API calls (`createVM`, `fetchInstance`,
`imageCreateCall`, `deleteVM`), the image wait returning (`imageReady`),
a write of the Environment Record (`saveConfig`), and the interactive
remote shell of a build session (`sshSession`). -/
inductive Event where
  | createVM
  | fetchInstance
  | imageCreateCall
  | imageReady
  | saveConfig (c : Config)
  | deleteVM
  | sshSession
deriving DecidableEq, Repr

/-- How a lifecycle operation ends: normal return, the early "No environment
found / already initialized" return, an uncaught exception propagating out,
or a polling loop that never terminates (oracle exhausted). -/
inductive RunOutcome where
  | completed
  | configError
  | raised
  | blocked
deriving DecidableEq, Repr

/-- Trace of one lifecycle operation run. -/
structure RunResult where
  outcome : RunOutcome
  events : List Event
  bootPolls : Nat
  imagePolls : Nat
deriving DecidableEq, Repr

/-- Number of instance-deletion API calls in a run. -/
def deleteCalls (r : RunResult) : Nat :=
  r.events.countP (fun e => match e with | .deleteVM => true | _ => false)

/-- Number of Environment Record writes in a run. -/
def configWrites (r : RunResult) : Nat :=
  r.events.countP (fun e => match e with | .saveConfig _ => true | _ => false)

/-- Oracle for one `edit_environment` run: the loaded record (`none` models a
missing `.agentconfig`, i.e. `_load_config` returning the empty dict), whether
`instance_create` succeeds, the boot-wait fetch oracle, the user's
save/cancel decision in `_interactive_session`, whether `images.create`
succeeds, the new image's id, and the image-wait fetch oracle. -/
structure EditWorld where
  loaded : Option Config
  createOk : Bool
  bootInit : String
  bootFetches : List FetchResult
  userSaves : Bool
  imageCreateOk : Bool
  newImageId : String
  imageInit : String
  imageFetch : Nat → FetchResult

/-- `edit_environment` (agent.py lines 229-264). A missing record or an empty
`base_image_id` fails before any provider call (`config.get('base_image_id')`
is falsy). `_create_vm` catches its own exception and returns `None`, after
which `_wait_for_boot(None)` raises an uncaught AttributeError. The
`try/finally` that guarantees `instance.delete()` begins only after
`_wait_for_boot` returns, so an exception raised inside the boot wait
propagates without deleting. In the `try` body, a save decision snapshots the
disk, waits for the image, rewrites the record with the new image id, and the
`finally` deletes the instance on every path through the block. -/
def edit_environment (w : EditWorld) : RunResult :=
  match w.loaded with
  | none => ⟨.configError, [], 0, 0⟩
  | some config =>
    if config.base_image_id = "" then ⟨.configError, [], 0, 0⟩
    else if w.createOk then
      match wait_for_boot_loop w.bootInit w.bootFetches with
      | .blocked => ⟨.blocked, [.createVM], 0, 0⟩
      | .raised n => ⟨.raised, [.createVM], n, 0⟩
      | .ready n =>
        if w.userSaves then
          if w.imageCreateOk then
            match wait_for_image w.imageInit w.imageFetch with
            | none => ⟨.blocked, [.createVM, .imageCreateCall], n, 0⟩
            | some (.error k) =>
              ⟨.raised, [.createVM, .imageCreateCall, .deleteVM], n, k⟩
            | some (.ok r) =>
              ⟨.completed,
               [.createVM, .imageCreateCall, .imageReady,
                .saveConfig ⟨config.repo_name, w.newImageId, config.instance_type,
                             config.created_at, config.root_password⟩,
                .deleteVM],
               n, r.polls⟩
          else ⟨.raised, [.createVM, .imageCreateCall, .deleteVM], n, 0⟩
        else ⟨.completed, [.createVM, .deleteVM], n, 0⟩
    else ⟨.raised, [.createVM], 0, 0⟩

/-- The stock base image hard-coded by `init_project`. -/
def default_base_image : String := "linode/ubuntu22.04"

/-- The instance class hard-coded by `init_project`. -/
def default_instance_type : String := "g6-nanode-1"

/-- Oracle for one `init_project` run: whether `.agentconfig` already exists,
the working-directory name, the current time, and the generated password. -/
structure InitWorld where
  fileExists : Bool
  repo_name : String
  now : Nat
  generatedPassword : String
deriving DecidableEq, Repr

/-- `init_project` (agent.py lines 194-210): if the record file exists, print
"already initialized" and return; otherwise write a fresh record. No provider
API is called on either path. -/
def init_project (w : InitWorld) : RunResult :=
  if w.fileExists then ⟨.configError, [], 0, 0⟩
  else
    ⟨.completed,
     [.saveConfig ⟨w.repo_name, default_base_image, default_instance_type,
                   w.now, w.generatedPassword⟩],
     0, 0⟩

/-- Oracle for one `build_session` run: the loaded record, the optional
`--continue <id>` argument, whether the instance fetch / create succeeds, and
the boot-wait fetch oracle. -/
structure BuildWorld where
  loaded : Option Config
  continueId : Option Nat
  fetchOk : Bool
  createOk : Bool
  bootInit : String
  bootFetches : List FetchResult
deriving Repr

/-- `build_session` (agent.py lines 366-430). The record check precedes the
`try` block and any provider call. With `--continue`, the existing instance is
fetched; otherwise a VM is created and the boot wait runs. Every exception in
the block is caught by the `except` clause (printed, then a normal return).
The session then opens an interactive SSH shell; no path deletes the
instance. -/
def build_session (w : BuildWorld) : RunResult :=
  match w.loaded with
  | none => ⟨.configError, [], 0, 0⟩
  | some config =>
    if config.base_image_id = "" then ⟨.configError, [], 0, 0⟩
    else
      match w.continueId with
      | some _ =>
        if w.fetchOk then ⟨.completed, [.fetchInstance, .sshSession], 0, 0⟩
        else ⟨.completed, [.fetchInstance], 0, 0⟩
      | none =>
        if w.createOk then
          match wait_for_boot_loop w.bootInit w.bootFetches with
          | .blocked => ⟨.blocked, [.createVM], 0, 0⟩
          | .raised n => ⟨.completed, [.createVM], n, 0⟩
          | .ready n => ⟨.completed, [.createVM, .sshSession], n, 0⟩
        else ⟨.completed, [.createVM], 0, 0⟩

/-- A sample Environment Record used for concrete runs. -/
def cfg0 : Config := ⟨"proj", "img-100", "g6-nanode-1", 0, "pw"⟩

/-- The record after `edit` persists image "img-200". -/
def cfg1 : Config := ⟨"proj", "img-200", "g6-nanode-1", 0, "pw"⟩

/-- A fully successful `edit` run: creation succeeds, the instance is already
running, the user saves, and the snapshot is immediately available. -/
def editWorldSave : EditWorld :=
  ⟨some cfg0, true, "running", [], true, true, "img-200", "available", fun _ => .ok "available"⟩

/-- An `edit` run in which the provider raises during the boot-status poll. -/
def editWorldBootErr : EditWorld :=
  ⟨some cfg0, true, "provisioning", [.err], true, true, "img-200", "x", fun _ => .ok "x"⟩

/-- A `build` run (no `--continue`) that reaches and exits the remote shell. -/
def buildWorldShell : BuildWorld :=
  ⟨some cfg0, none, true, true, "running", []⟩

/-- An `edit` attempt with no Environment Record on disk. -/
def editWorldNoRecord : EditWorld :=
  ⟨none, true, "running", [], true, true, "img-200", "available", fun _ => .ok "available"⟩

/-- A `build --continue 7` attempt with no Environment Record on disk. -/
def buildWorldNoRecord : BuildWorld :=
  ⟨none, some 7, true, true, "running", []⟩

/-- An `init` attempt when `.agentconfig` already exists. -/
def initWorldExisting : InitWorld := ⟨true, "proj", 42, "pw2"⟩

/-- Number of provider API calls in a run (instance create/fetch/delete,
image create). -/
def providerCalls (r : RunResult) : Nat :=
  r.events.countP (fun e => match e with
    | .createVM => true
    | .fetchInstance => true
    | .imageCreateCall => true
    | .deleteVM => true
    | _ => false)

/-- The guard `not config.get('base_image_id')`: the record is absent, or it
carries no base image identifier. -/
def record_missing : Option Config → Prop
  | none => True
  | some c => c.base_image_id = ""

example : edit_environment editWorldSave =
    ⟨.completed, [.createVM, .imageCreateCall, .imageReady, .saveConfig cfg1, .deleteVM],
     0, 0⟩ := rfl

example : edit_environment editWorldBootErr = ⟨.raised, [.createVM], 1, 0⟩ := rfl

example : build_session buildWorldShell = ⟨.completed, [.createVM, .sshSession], 0, 0⟩ := rfl

example : init_project ⟨true, "p", 5, "pw"⟩ = ⟨.configError, [], 0, 0⟩ := rfl

example : wait_for_boot_loop "provisioning"
    [.ok "provisioning", .ok "provisioning", .ok "running"] = .ready 3 := by decide

/-- If the boot-status loop exits normally, "running" was observed: either as
the entry status or among the fetched statuses. -/
theorem boot_ready_mem (fs : List FetchResult) :
    ∀ (s : String) (n : Nat), wait_for_boot_loop s fs = .ready n →
      "running" ∈ s :: statusesOf fs := by
  induction fs with
  | nil =>
    intro s n h
    by_cases hs : s = "running"
    · rw [hs]; exact List.mem_cons_self _ _
    · simp [wait_for_boot_loop, hs] at h
  | cons f rest ih =>
    intro s n h
    by_cases hs : s = "running"
    · rw [hs]; exact List.mem_cons_self _ _
    · cases f with
      | err => simp [wait_for_boot_loop, hs] at h
      | ok s' =>
        cases hrec : wait_for_boot_loop s' rest with
        | ready m =>
          have hm := ih s' m hrec
          simp only [statusesOf]
          exact List.mem_cons_of_mem _ hm
        | raised m => simp [wait_for_boot_loop, hs, hrec] at h
        | blocked => simp [wait_for_boot_loop, hs, hrec] at h

/-- If "running" occurs in the entry status followed by the fetched statuses,
the loop exits normally (at the first occurrence). -/
theorem boot_running_ready (sts : List String) :
    ∀ (s : String), "running" ∈ s :: sts →
      ∃ n, wait_for_boot_loop s (sts.map FetchResult.ok) = .ready n := by
  induction sts with
  | nil =>
    intro s h
    have hs : s = "running" := by
      rcases List.mem_cons.1 h with h0 | h0
      · exact h0.symm
      · simp at h0
    exact ⟨0, by simp [wait_for_boot_loop, hs]⟩
  | cons s' rest ih =>
    intro s h
    by_cases hs : s = "running"
    · exact ⟨0, by simp [wait_for_boot_loop, hs]⟩
    · have h' : "running" ∈ s' :: rest := by
        rcases List.mem_cons.1 h with h0 | h0
        · exact absurd h0.symm hs
        · exact h0
      obtain ⟨m, hm⟩ := ih s' h'
      exact ⟨m + 1, by simp [wait_for_boot_loop, hs, hm]⟩

/-- If "running" never occurs, the loop consumes the entire fetch oracle and
is still spinning: it polls forever. -/
theorem boot_no_running_blocked (sts : List String) :
    ∀ (s : String), "running" ∉ s :: sts →
      wait_for_boot_loop s (sts.map FetchResult.ok) = .blocked := by
  induction sts with
  | nil =>
    intro s h
    have hs : s ≠ "running" := fun hc => h (by rw [hc]; exact List.mem_cons_self _ _)
    simp [wait_for_boot_loop, hs]
  | cons s' rest ih =>
    intro s h
    have hs : s ≠ "running" := fun hc => h (by rw [hc]; exact List.mem_cons_self _ _)
    have h' : "running" ∉ s' :: rest := fun hc => h (List.mem_cons_of_mem _ hc)
    simp [wait_for_boot_loop, hs, ih s' h']

example : wait_for_boot "running" [] = some ⟨0, 30⟩ := by decide

example : wait_for_image "available" (fun _ => .err) = some (.ok ⟨0, [], false⟩) := rfl

/-- The image loop cannot run out of fuel once the fuel covers the remaining
budget: each iteration adds 10 to `wait_time` and the loop breaks
unconditionally at `max_wait_time`. -/
theorem image_loop_isSome (fetch : Nat → FetchResult) :
    ∀ (fuel wait_time : Nat) (status : String),
      wait_time < max_wait_time → max_wait_time ≤ wait_time + 10 * fuel →
      (wait_for_image_loop fetch status wait_time fuel).isSome := by
  intro fuel
  induction fuel with
  | zero =>
    intro wt s h1 h2
    simp only [max_wait_time] at h1 h2
    omega
  | succ f ih =>
    intro wt s h1 h2
    by_cases hs : s = "available"
    · simp [wait_for_image_loop, hs]
    · cases hf : fetch wt with
      | err => simp [wait_for_image_loop, hs, hf]
      | ok s' =>
        by_cases hw : max_wait_time ≤ wt + 10
        · simp [wait_for_image_loop, hs, hf, hw]
        · have hrec := ih (wt + 10) s' (by omega) (by omega)
          simp only [wait_for_image_loop, hs, hf, hw, if_neg, if_false, ite_false]
          cases hr : wait_for_image_loop fetch s' (wt + 10) f with
          | none => rw [hr] at hrec; simp at hrec
          | some r =>
            cases r with
            | error k => simp [hs, hf, hw, hr]
            | ok r => simp [hs, hf, hw, hr]

/-- Poll-count bound for the image loop: starting from a 10-aligned
`wait_time` below the budget, the loop performs at most
`(max_wait_time - wait_time) / 10` polls, counted whether it returns or
raises. -/
theorem image_loop_polls_le (fetch : Nat → FetchResult) :
    ∀ (fuel wait_time : Nat) (status : String) (r : Except Nat ImageWaitResult),
      wait_time % 10 = 0 → wait_time < max_wait_time →
      wait_for_image_loop fetch status wait_time fuel = some r →
      image_result_polls r * 10 + wait_time ≤ max_wait_time := by
  intro fuel
  induction fuel with
  | zero => intro wt s r _ _ h; simp [wait_for_image_loop] at h
  | succ f ih =>
    intro wt s r h10 hlt h
    by_cases hs : s = "available"
    · simp [wait_for_image_loop, hs] at h
      rw [← h]
      simp [image_result_polls]
      omega
    · cases hf : fetch wt with
      | err =>
        simp [wait_for_image_loop, hs, hf] at h
        rw [← h]
        simp only [image_result_polls, max_wait_time] at *
        omega
      | ok s' =>
        by_cases hw : max_wait_time ≤ wt + 10
        · simp [wait_for_image_loop, hs, hf, hw] at h
          rw [← h]
          simp only [image_result_polls, max_wait_time] at *
          omega
        · simp only [wait_for_image_loop, hs, hf, hw, if_false, ite_false] at h
          cases hr : wait_for_image_loop fetch s' (wt + 10) f with
          | none => rw [hr] at h; simp [hs, hw] at h
          | some r' =>
            have hb := ih (wt + 10) s' r' (by omega) (by omega) hr
            rw [hr] at h
            cases r' with
            | error k =>
              simp [hs, hw] at h
              rw [← h]
              simp only [image_result_polls, max_wait_time] at *
              omega
            | ok rr =>
              simp [hs, hw] at h
              rw [← h]
              simp only [image_result_polls, max_wait_time] at *
              omega

/-- Exact shape of an image wait in which "available" is never observed:
starting from a 10-aligned `wait_time` below the budget with enough fuel, the
loop performs exactly `(max_wait_time - wait_time) / 10` polls, prints the
percentage for each elapsed time, prints the soft-timeout warning, and
returns normally. -/
theorem image_loop_timeout (fetch : Nat → FetchResult)
    (hf : ∀ n, ∃ s, fetch n = .ok s ∧ s ≠ "available") :
    ∀ (fuel wait_time : Nat) (status : String), status ≠ "available" →
      wait_time % 10 = 0 → wait_time < max_wait_time →
      max_wait_time ≤ wait_time + 10 * fuel →
      wait_for_image_loop fetch status wait_time fuel =
        some (.ok ⟨(max_wait_time - wait_time) / 10,
                   (List.range ((max_wait_time - wait_time) / 10)).map
                     (fun i => image_percentage (wait_time + 10 * (i + 1))),
                   true⟩) := by
  intro fuel
  induction fuel with
  | zero =>
    intro wt s _ _ h1 h2
    simp only [max_wait_time] at h1 h2
    omega
  | succ f ih =>
    intro wt s hs h10 hlt hfuel
    obtain ⟨s', hfe, hs'⟩ := hf wt
    by_cases hw : max_wait_time ≤ wt + 10
    · have hwt : wt = 590 := by simp only [max_wait_time] at *; omega
      subst hwt
      simp only [wait_for_image_loop, hs, hfe, hw, if_true, if_false, ite_true, ite_false]
      simp [max_wait_time, List.range_succ]
    · have hrec := ih (wt + 10) s' hs' (by omega) (by simp only [max_wait_time] at *; omega)
        (by simp only [max_wait_time] at *; omega)
      simp only [wait_for_image_loop, hs, hfe, hw, if_false, ite_false, hrec]
      simp only [Option.some.injEq, Except.ok.injEq, ImageWaitResult.mk.injEq]
      have hn : (max_wait_time - wt) / 10 = (max_wait_time - (wt + 10)) / 10 + 1 := by
        simp only [max_wait_time] at *; omega
      refine ⟨by omega, ?_, trivial⟩
      rw [hn, List.range_succ_eq_map, List.map_cons, List.map_map]
      refine congrArg₂ _ (by norm_num) ?_
      refine List.map_congr_left ?_
      intro i _
      simp only [Function.comp]
      refine congrArg _ ?_
      omega

/-- Observed statuses of an error-free fetch oracle are the statuses themselves. -/
theorem statusesOf_map_ok (sts : List String) : statusesOf (sts.map FetchResult.ok) = sts := by
  induction sts with
  | nil => rfl
  | cons s rest ih => simp [statusesOf, ih]

/-- C1: `_wait_for_boot` declares the VM SSH-ready only after observing status
"running" at least once (as entry status or in a fetch) and only after the
full grace loop of 30 one-second ticks; on the fetched sequence
[provisioning, provisioning, running] it makes exactly 3 status polls and
then 30 grace ticks. -/
theorem awaitRunning_grace_after_running :
    (∀ (s : String) (fs : List FetchResult) (r : BootResult),
        wait_for_boot s fs = some r →
        "running" ∈ s :: statusesOf fs ∧ r.graceTicks = 30)
    ∧ wait_for_boot "provisioning" [.ok "provisioning", .ok "provisioning", .ok "running"]
        = some ⟨3, 30⟩ := by
  constructor
  · intro s fs r h
    cases hl : wait_for_boot_loop s fs with
    | ready n =>
      simp only [wait_for_boot, hl, Option.some.injEq] at h
      refine ⟨boot_ready_mem fs s n hl, ?_⟩
      rw [← h]
      simp [ssh_grace_loop]
    | raised n => simp [wait_for_boot, hl] at h
    | blocked => simp [wait_for_boot, hl] at h
  · decide

/-- C1 witness: a concrete run through the theorem at the sequence [running]. -/
theorem awaitRunning_grace_after_running_witness :
    "running" ∈ "provisioning" :: statusesOf [.ok "running"]
    ∧ (⟨1, 30⟩ : BootResult).graceTicks = 30 :=
  awaitRunning_grace_after_running.1 "provisioning" [.ok "running"] ⟨1, 30⟩ (by decide)

/-- C7: the boot-status loop has no timeout and no retry bound - it exits
normally exactly when "running" appears among the observed statuses, and on
any status sequence never containing "running" it consumes the whole oracle
still spinning (polls forever), so `_wait_for_boot` never completes. -/
theorem awaitRunning_terminates_iff_running (s : String) (sts : List String) :
    ((∃ n, wait_for_boot_loop s (sts.map FetchResult.ok) = .ready n) ↔ "running" ∈ s :: sts)
    ∧ ("running" ∉ s :: sts →
        wait_for_boot_loop s (sts.map FetchResult.ok) = .blocked
        ∧ wait_for_boot s (sts.map FetchResult.ok) = none) := by
  constructor
  · constructor
    · rintro ⟨n, hn⟩
      have hm := boot_ready_mem (sts.map FetchResult.ok) s n hn
      rwa [statusesOf_map_ok] at hm
    · exact boot_running_ready sts s
  · intro h
    have hb := boot_no_running_blocked sts s h
    exact ⟨hb, by simp [wait_for_boot, hb]⟩

/-- C7 witness: a concrete all-provisioning sequence on which the loop is
still spinning after the whole oracle. -/
theorem awaitRunning_terminates_iff_running_witness :
    wait_for_boot_loop "provisioning" (["provisioning", "queued"].map FetchResult.ok) = .blocked
    ∧ wait_for_boot "provisioning" (["provisioning", "queued"].map FetchResult.ok) = none :=
  (awaitRunning_terminates_iff_running "provisioning" ["provisioning", "queued"]).2 (by decide)

/-- C10: `_wait_for_image` always terminates - for every initial status and
every fetch oracle it returns within at most 60 polls (each adding 10s of
wait), because the soft-timeout break fires unconditionally at 600s. -/
theorem awaitImageReady_terminates_bounded (status : String) (fetch : Nat → FetchResult) :
    ∃ r, wait_for_image status fetch = some r ∧ image_result_polls r ≤ 60 := by
  have hs := image_loop_isSome fetch image_fuel 0 status
    (by norm_num [max_wait_time]) (by norm_num [max_wait_time, image_fuel])
  obtain ⟨r, hr⟩ := Option.isSome_iff_exists.1 hs
  refine ⟨r, hr, ?_⟩
  have hb := image_loop_polls_le fetch image_fuel 0 status r
    (by norm_num) (by norm_num [max_wait_time]) hr
  simp only [max_wait_time] at hb
  omega

/-- C2: when "available" is never observed, `_wait_for_image` makes exactly
60 polls of 10s each, printing for each elapsed time `wt` the percentage
`min(wt * 95 / 600, 95)`, prints the soft-timeout warning once the wait
reaches 600s, and then returns normally - no exception - so the caller
(`edit_environment`) proceeds exactly as on a ready image, completing and
writing the record once. -/
theorem awaitImageReady_soft_timeout_success (status : String) (fetch : Nat → FetchResult)
    (h0 : status ≠ "available")
    (hf : ∀ n, ∃ s, fetch n = .ok s ∧ s ≠ "available") :
    wait_for_image status fetch =
      some (.ok ⟨60, (List.range 60).map (fun i => image_percentage (10 * (i + 1))), true⟩)
    ∧ ∀ (w : EditWorld) (c : Config) (nb : Nat),
        w.loaded = some c → c.base_image_id ≠ "" → w.createOk = true →
        wait_for_boot_loop w.bootInit w.bootFetches = .ready nb →
        w.userSaves = true → w.imageCreateOk = true →
        w.imageInit = status → w.imageFetch = fetch →
        (edit_environment w).outcome = .completed ∧ configWrites (edit_environment w) = 1 := by
  have hmain : wait_for_image status fetch =
      some (.ok ⟨60, (List.range 60).map (fun i => image_percentage (10 * (i + 1))), true⟩) := by
    have ht := image_loop_timeout fetch hf image_fuel 0 status h0
      (by norm_num) (by norm_num [max_wait_time]) (by norm_num [max_wait_time, image_fuel])
    rw [wait_for_image, ht]
    simp only [max_wait_time, Option.some.injEq, Except.ok.injEq, ImageWaitResult.mk.injEq]
    norm_num
  refine ⟨hmain, ?_⟩
  intro w c nb hl hb hcr hboot hus hic hii hifetch
  rw [edit_environment, hl]
  simp only [hb, if_false, ite_false, hcr, if_true, ite_true, hboot, hus, hic, hii, hifetch,
    hmain]
  exact ⟨trivial, rfl⟩

/-- C2 witness: the theorem applied to an image stuck in status "creating". -/
theorem awaitImageReady_soft_timeout_success_witness :
    wait_for_image "creating" (fun _ => .ok "creating") =
      some (.ok ⟨60, (List.range 60).map (fun i => image_percentage (10 * (i + 1))), true⟩) :=
  (awaitImageReady_soft_timeout_success "creating" (fun _ => .ok "creating")
    (by decide) (fun n => ⟨"creating", rfl, by decide⟩)).1

/-- C3 counterexample: creation succeeds, then the provider raises during the
boot-status poll. This exit path comes after VM creation succeeded, yet no
delete call is made, because `_wait_for_boot` runs before the `try/finally`
block that guarantees `instance.delete()`. -/
theorem edit_boot_error_skips_delete :
    editWorldBootErr.createOk = true
    ∧ Event.createVM ∈ (edit_environment editWorldBootErr).events
    ∧ (edit_environment editWorldBootErr).outcome = .raised
    ∧ deleteCalls (edit_environment editWorldBootErr) = 0 := by decide

/-- C3 (amended): in `edit_environment`, instance deletion is invoked exactly
once on every exit path that reaches the `try/finally` block - i.e. after the
VM creation succeeded and the boot wait completed without raising - no matter
whether the interactive session, the snapshot call or the image wait fails.
A provider error during the boot-status polling itself exits with no delete
call. -/
theorem edit_delete_exactly_once_in_session_block (w : EditWorld) (c : Config) (n : Nat)
    (hl : w.loaded = some c) (hb : c.base_image_id ≠ "")
    (hcr : w.createOk = true)
    (hboot : wait_for_boot_loop w.bootInit w.bootFetches = .ready n) :
    deleteCalls (edit_environment w) = 1 := by
  obtain ⟨lo, cr, bi, bf, us, ic, ni, ii, ifc⟩ := w
  simp only at hl hcr hboot
  subst hl hcr
  simp only [edit_environment, hb, if_false, ite_false, if_true, ite_true, hboot]
  cases us with
  | false => rfl
  | true =>
    cases ic with
    | false => rfl
    | true =>
      cases hwi : wait_for_image ii ifc with
      | none =>
        have hsome : (wait_for_image ii ifc).isSome := by
          rw [wait_for_image]
          exact image_loop_isSome ifc image_fuel 0 ii
            (by norm_num [max_wait_time]) (by norm_num [max_wait_time, image_fuel])
        rw [hwi] at hsome
        simp at hsome
      | some r =>
        cases r with
        | error k => rfl
        | ok rr => rfl

/-- C3 witness: one delete call on a fully successful save session. -/
theorem edit_delete_exactly_once_in_session_block_witness :
    deleteCalls (edit_environment editWorldSave) = 1 :=
  edit_delete_exactly_once_in_session_block editWorldSave cfg0 0 rfl (by decide) rfl (by decide)

/-- C4: `edit_environment` writes the record's new base image only in a run
where the user chose Save and `_wait_for_image` returned normally, and in that
case the full event order is create, snapshot call, image-wait return, record
write, instance delete - so the write never precedes the image wait and the
delete follows the write; when the user does not choose Save, the record is
never written. -/
theorem edit_record_update_after_image_ready (w : EditWorld) :
    (∀ s : Config, Event.saveConfig s ∈ (edit_environment w).events →
        w.userSaves = true
        ∧ (∃ r, wait_for_image w.imageInit w.imageFetch = some (.ok r))
        ∧ (edit_environment w).events =
            [.createVM, .imageCreateCall, .imageReady, .saveConfig s, .deleteVM])
    ∧ (w.userSaves = false → configWrites (edit_environment w) = 0) := by
  obtain ⟨lo, cr, bi, bf, us, ic, ni, ii, ifc⟩ := w
  simp only
  cases lo with
  | none => exact ⟨fun s hs => by simp [edit_environment] at hs, fun _ => rfl⟩
  | some c =>
    by_cases hb : c.base_image_id = ""
    · exact ⟨fun s hs => by simp [edit_environment, hb] at hs, fun _ => by simp [edit_environment, hb]; rfl⟩
    · cases cr with
      | false =>
        exact ⟨fun s hs => by simp [edit_environment, hb] at hs, fun _ => by simp [edit_environment, hb]; rfl⟩
      | true =>
        cases hboot : wait_for_boot_loop bi bf with
        | blocked =>
          exact ⟨fun s hs => by simp [edit_environment, hb, hboot] at hs,
                 fun _ => by simp [edit_environment, hb, hboot]; rfl⟩
        | raised m =>
          exact ⟨fun s hs => by simp [edit_environment, hb, hboot] at hs,
                 fun _ => by simp [edit_environment, hb, hboot]; rfl⟩
        | ready m =>
          cases us with
          | false =>
            exact ⟨fun s hs => by simp [edit_environment, hb, hboot] at hs,
                   fun _ => by simp [edit_environment, hb, hboot]; rfl⟩
          | true =>
            refine ⟨?_, fun hfalse => by simp at hfalse⟩
            intro s hs
            cases ic with
            | false => simp [edit_environment, hb, hboot] at hs
            | true =>
              cases hwi : wait_for_image ii ifc with
              | none => simp [edit_environment, hb, hboot, hwi] at hs
              | some r =>
                cases r with
                | error k => simp [edit_environment, hb, hboot, hwi] at hs
                | ok rr =>
                  have hsc : s = ⟨c.repo_name, ni, c.instance_type, c.created_at,
                      c.root_password⟩ := by
                    simp [edit_environment, hb, hboot, hwi] at hs
                    exact hs
                  subst hsc
                  exact ⟨rfl, ⟨rr, rfl⟩, by simp [edit_environment, hb, hboot, hwi]⟩

/-- C4 witness: the theorem applied to a fully successful save session. -/
theorem edit_record_update_after_image_ready_witness :
    editWorldSave.userSaves = true
    ∧ (∃ r, wait_for_image editWorldSave.imageInit editWorldSave.imageFetch = some (.ok r))
    ∧ (edit_environment editWorldSave).events =
        [.createVM, .imageCreateCall, .imageReady, .saveConfig cfg1, .deleteVM] :=
  (edit_record_update_after_image_ready editWorldSave).1 cfg1 (by decide)

/-- C9: when `edit_environment` writes the record, the written record keeps
the loaded record's project name, instance type, creation timestamp and
root password unchanged, and only the base image field changes, to the new
image's identifier. -/
theorem edit_save_mutates_only_base_image (w : EditWorld) (c s : Config)
    (hl : w.loaded = some c)
    (hmem : Event.saveConfig s ∈ (edit_environment w).events) :
    s.repo_name = c.repo_name ∧ s.instance_type = c.instance_type
    ∧ s.created_at = c.created_at ∧ s.root_password = c.root_password
    ∧ s.base_image_id = w.newImageId := by
  obtain ⟨lo, cr, bi, bf, us, ic, ni, ii, ifc⟩ := w
  simp only at hl hmem ⊢
  subst hl
  by_cases hb : c.base_image_id = ""
  · simp [edit_environment, hb] at hmem
  · cases cr with
    | false => simp [edit_environment, hb] at hmem
    | true =>
      cases hboot : wait_for_boot_loop bi bf with
      | blocked => simp [edit_environment, hb, hboot] at hmem
      | raised m => simp [edit_environment, hb, hboot] at hmem
      | ready m =>
        cases us with
        | false => simp [edit_environment, hb, hboot] at hmem
        | true =>
          cases ic with
          | false => simp [edit_environment, hb, hboot] at hmem
          | true =>
            cases hwi : wait_for_image ii ifc with
            | none => simp [edit_environment, hb, hboot, hwi] at hmem
            | some r =>
              cases r with
              | error k => simp [edit_environment, hb, hboot, hwi] at hmem
              | ok rr =>
                have hsc : s = ⟨c.repo_name, ni, c.instance_type, c.created_at,
                    c.root_password⟩ := by
                  simp [edit_environment, hb, hboot, hwi] at hmem
                  exact hmem
                subst hsc
                exact ⟨rfl, rfl, rfl, rfl, rfl⟩

/-- C9 witness: the theorem applied to a fully successful save session. -/
theorem edit_save_mutates_only_base_image_witness :
    cfg1.repo_name = cfg0.repo_name ∧ cfg1.instance_type = cfg0.instance_type
    ∧ cfg1.created_at = cfg0.created_at ∧ cfg1.root_password = cfg0.root_password
    ∧ cfg1.base_image_id = editWorldSave.newImageId :=
  edit_save_mutates_only_base_image editWorldSave cfg0 cfg1 rfl (by decide)

/-- C5: `init_project` with an existing record file aborts with the
already-initialized config error, writes nothing and issues no provider
call; and no `init_project` run ever contacts the provider or creates a VM. -/
theorem init_already_initialized_aborts (w : InitWorld) :
    (w.fileExists = true → init_project w = ⟨.configError, [], 0, 0⟩)
    ∧ providerCalls (init_project w) = 0 := by
  obtain ⟨fe, rn, now, gp⟩ := w
  cases fe with
  | false => exact ⟨fun h => by simp at h, rfl⟩
  | true => exact ⟨fun _ => rfl, rfl⟩

/-- C5 witness: the theorem applied to an already-initialized project. -/
theorem init_already_initialized_aborts_witness :
    init_project initWorldExisting = ⟨.configError, [], 0, 0⟩ :=
  (init_already_initialized_aborts initWorldExisting).1 rfl

/-- C6: with the Environment Record absent or carrying no base image
identifier, both `edit_environment` and `build_session` (with or without
`--continue`) return the config error with an empty event trace: no VM is
created or contacted. -/
theorem missing_record_aborts_before_provider (we : EditWorld) (wb : BuildWorld) :
    (record_missing we.loaded → edit_environment we = ⟨.configError, [], 0, 0⟩)
    ∧ (record_missing wb.loaded → build_session wb = ⟨.configError, [], 0, 0⟩) := by
  constructor
  · intro h
    cases hl : we.loaded with
    | none => simp [edit_environment, hl]
    | some c =>
      rw [hl] at h
      simp only [record_missing] at h
      simp [edit_environment, hl, h]
  · intro h
    cases hl : wb.loaded with
    | none => simp [build_session, hl]
    | some c =>
      rw [hl] at h
      simp only [record_missing] at h
      simp [build_session, hl, h]

/-- C6 witness: the theorem applied to a project with no record on disk. -/
theorem missing_record_aborts_before_provider_witness :
    edit_environment editWorldNoRecord = ⟨.configError, [], 0, 0⟩
    ∧ build_session buildWorldNoRecord = ⟨.configError, [], 0, 0⟩ :=
  ⟨(missing_record_aborts_before_provider editWorldNoRecord buildWorldNoRecord).1 trivial,
   (missing_record_aborts_before_provider editWorldNoRecord buildWorldNoRecord).2 trivial⟩

/-- C8 counterexample: a `build` run reaches the interactive shell, the shell
exits, the run completes - and no delete call was ever made, so the default
is not teardown. -/
theorem build_shell_exit_no_delete :
    build_session buildWorldShell = ⟨.completed, [.createVM, .sshSession], 0, 0⟩
    ∧ deleteCalls (build_session buildWorldShell) = 0 := by decide

/-- C8 (amended): `build_session` never deletes an instance on any path -
after the remote session exits the VM is left running and must be reclaimed
manually. -/
theorem build_never_deletes (w : BuildWorld) : deleteCalls (build_session w) = 0 := by
  obtain ⟨lo, ci, fo, co, bi, bf⟩ := w
  cases lo with
  | none => rfl
  | some c =>
    by_cases hb : c.base_image_id = ""
    · simp [build_session, hb, deleteCalls]
    · cases ci with
      | some i =>
        cases fo <;> simp [build_session, hb, deleteCalls]
      | none =>
        cases co with
        | false => simp [build_session, hb, deleteCalls]
        | true =>
          cases hboot : wait_for_boot_loop bi bf <;>
            simp [build_session, hb, hboot, deleteCalls]
